import Mathlib

/-!
Verification of the time-clash-server core (src/server.js) against its
specification.  The development shallowly embeds the server's hot path:
the tournament-key helpers, the custom-timing helpers, the rate limiter
(checkRateLimit), the leaderboard cache (refreshLeaderboardCache), the
per-connection session store, and the three socket handlers, namely
the ig (init game), st (start timer) and sp (stop timer) handlers, plus
the periodic tournament check interval (tick).

Modelling conventions:
- Time is Nat (milliseconds since the epoch), as in Date.now().
- The tournament key produced by getTournamentKey is the start of the
  15-minute interval; the source formats that instant as a UTC date
  string which is injective in the interval start, so the TId.slot
  constructor carries the interval start directly.  Manual and scheduled
  tournament ids (tournament_manual_TS, tournament_scheduled_SID_TS) are
  the other constructors; in the source they are strings that can never
  collide with a slot key.
- Redis is modelled by the keys the core touches: the per-tournament
  sorted sets (member = player, score = timing error), the per-tournament
  target key with its setex expiry, and the custom-timing keys of
  manual/scheduled tournaments with their setex expiry.  A get observes a
  key only while now is before its expiry, as redis does.
- The repository supports two redis drivers (Upstash HTTP and ioredis
  TCP).  They return zscore replies with different JavaScript types:
  Upstash returns a number, ioredis returns a decimal string.  The ig
  handler pushes the reply through a JavaScript truthiness test
  (bestScore ? parseFloat(bestScore) : null), so the embedding models
  the reply as a JavaScript value together with the driver that produced
  it, and models truthiness exactly (the number 0 is falsy, the
  string "0" is truthy).
- Fire-and-forget external effects (Supabase archival, history list
  pushes, user metadata writes, the 10 Hz advisory elapsed-time pushes,
  the activeUsers presence directory) do not feed back into any state
  read by the handlers, and are omitted; broadcasts that the handlers
  emit are modelled as Emit values.
- Math.random() draws are passed in as an explicit fresh argument
  (the source computes Math.floor(Math.random() * 9000) + 1000).
- The health store is the external attempt-resource collaborator keyed
  by player id; the core handlers of server.js never read it (a later
  server variant in the repository, the first document of
  src/unnamed/part_005, gates the st handler on it).
-/

namespace TimeClash

/-- Association-list lookup, first binding wins (JavaScript Map semantics). -/
def alookup {α β : Type} [DecidableEq α] : List (α × β) → α → Option β
  | [], _ => none
  | (a, b) :: t, k => if a = k then some b else alookup t k

/-- Association-list update: replace the existing binding in place or append,
matching JavaScript Map.set which updates in place preserving order. -/
def aset {α β : Type} [DecidableEq α] : List (α × β) → α → β → List (α × β)
  | [], k, v => [(k, v)]
  | (a, b) :: t, k, v => if a = k then (k, v) :: t else (a, b) :: aset t k v

/-- Tournament runs every 15 minutes (server.js line 610). -/
def TOURNAMENT_DURATION_MS : Nat := 15 * 60 * 1000

/-- 12 minutes play time (server.js line 611). -/
def PLAY_TIME_MS : Nat := 12 * 60 * 1000

/-- 3 minutes winner/leaderboard time (server.js line 612). -/
def LEADERBOARD_TIME_MS : Nat := 3 * 60 * 1000

/-- Tournament identifiers.  A slot id carries the start of its 15-minute
interval (the source formats it as tournament_YYYY_MM_DD_HH_MM, which is
injective in the interval start); manual and scheduled ids carry the
numeric components of their source string forms. -/
inductive TId : Type where
  | slot (start : Nat)
  | manual (ts : Nat)
  | scheduled (sid : Nat) (ts : Nat)
deriving DecidableEq

/-- getTournamentKey (server.js lines 614 to 621): the key of the 15-minute
interval containing the timestamp. -/
def getTournamentKey (timestamp : Nat) : TId :=
  TId.slot (timestamp / TOURNAMENT_DURATION_MS * TOURNAMENT_DURATION_MS)

/-- A JavaScript value as returned by a redis read: null, a number, or a
string. -/
inductive JVal : Type where
  | jnull
  | jnum (n : Nat)
  | jstr (s : String)
deriving DecidableEq

/-- JavaScript truthiness: null and the number 0 are falsy; a string is falsy
exactly when it is empty (so the string form of 0 is truthy). -/
def JVal.truthy : JVal → Bool
  | JVal.jnull => false
  | JVal.jnum n => decide (n ≠ 0)
  | JVal.jstr s => decide (s ≠ "")

/-- Decimal parsing of a digit list (parseFloat on the decimal-digit strings
the server meets). -/
def parseNatAux : List Char → Nat → Nat
  | [], acc => acc
  | c :: t, acc => parseNatAux t (acc * 10 + (c.toNat - 48))

/-- parseFloat of a decimal-digit string. -/
def parseNatStr (s : String) : Nat := parseNatAux s.data 0

/-- parseFloat of a redis reply, for the replies the server actually meets
(scores are nonnegative integers). -/
def JVal.toNatVal : JVal → Nat
  | JVal.jnull => 0
  | JVal.jnum n => n
  | JVal.jstr s => parseNatStr s

/-- The two redis drivers of the hybrid setup (server.js lines 5 to 22). -/
inductive Driver : Type where
  | upstash
  | ioredis
deriving DecidableEq

/-- The JavaScript value of a zscore reply: the Upstash HTTP client returns a
number, ioredis returns a decimal string; a missing member gives null. -/
def zscoreReply (d : Driver) : Option Nat → JVal
  | none => JVal.jnull
  | some n =>
    match d with
    | Driver.upstash => JVal.jnum n
    | Driver.ioredis => JVal.jstr (toString n)

/-- One member of a redis sorted set: tournament id, player, score. -/
structure ZEntry : Type where
  tid : TId
  member : String
  score : Nat
deriving DecidableEq

/-- redis zscore: the score of a member in a tournament's sorted set. -/
def zscore (zs : List ZEntry) (tid : TId) (m : String) : Option Nat :=
  (zs.find? (fun e => decide (e.tid = tid) && decide (e.member = m))).map (fun e => e.score)

/-- redis zadd: set the member's score in the tournament's sorted set,
overwriting any previous score of that member. -/
def zadd (zs : List ZEntry) (tid : TId) (score : Nat) (m : String) : List ZEntry :=
  ZEntry.mk tid m score :: zs.filter (fun e => !(decide (e.tid = tid) && decide (e.member = m)))

/-- Sorted-set order: ascending score, ties broken by member (redis orders
equal scores lexicographically by member). -/
def zleb (a b : ZEntry) : Bool :=
  decide (a.score < b.score) || (decide (a.score = b.score) && !decide (b.member < a.member))

/-- Insertion into a list sorted by zleb. -/
def zinsert (e : ZEntry) : List ZEntry → List ZEntry
  | [] => [e]
  | x :: t => if zleb e x then e :: x :: t else x :: zinsert e t

/-- The members of one tournament's sorted set in ascending score order
(redis zrange over the whole set). -/
def zrangeAll (zs : List ZEntry) (tid : TId) : List ZEntry :=
  (zs.filter (fun e => decide (e.tid = tid))).foldr zinsert []

/-- redis zrange 0 2: the top three entries (lowest scores) of a tournament. -/
def ztop3 (zs : List ZEntry) (tid : TId) : List ZEntry :=
  (zrangeAll zs tid).take 3

/-- redis zrank: zero-based ascending rank of a member, null when absent. -/
def zrank (zs : List ZEntry) (tid : TId) (m : String) : Option Nat :=
  (zrangeAll zs tid).findIdx? (fun e => decide (e.member = m))

/-- The custom timing record of a manual or scheduled tournament
(the four redis keys tournament:ID:duration, playTime, leaderboardTime and
startTime); expiry is the instant the setex TTL placed on those keys runs
out. -/
structure CustomTiming : Type where
  duration : Nat
  playTime : Nat
  leaderboardTime : Nat
  startTime : Nat
  expiry : Nat
deriving DecidableEq

/-- The redis keys the core reads and writes. -/
structure RedisState : Type where
  zsets : List ZEntry
  targets : List (TId × Nat × Nat)
  timing : List (TId × CustomTiming)
deriving DecidableEq

/-- getCustomTournamentTiming (server.js lines 624 to 643): the four timing
keys of a custom tournament, observed only while their TTL has not run out. -/
def getCustomTournamentTiming (r : RedisState) (tid : TId) (now : Nat) : Option CustomTiming :=
  match alookup r.timing tid with
  | some c => if now < c.expiry then some c else none
  | none => none

/-- The redis get of the per-tournament target key, observed only while its
setex TTL has not run out. -/
def getTarget (r : RedisState) (tid : TId) (now : Nat) : Option Nat :=
  match alookup r.targets tid with
  | some (v, expiry) => if now < expiry then some v else none
  | none => none

/-- The setex TTL placed on the target key: Math.ceil of the default
tournament duration in seconds (server.js line 1364), back in milliseconds. -/
def TARGET_TTL_MS : Nat := (TOURNAMENT_DURATION_MS + 999) / 1000 * 1000

/-- redis setex on the target key (server.js line 1364): the expiry is the
fixed default tournament duration, independent of any custom duration. -/
def setTarget (r : RedisState) (tid : TId) (v : Nat) (now : Nat) : RedisState :=
  { r with targets := aset r.targets tid (v, now + TARGET_TTL_MS) }

/-- Default rolling-slot time left (server.js lines 665 to 677, default
branch). -/
def defaultTimeLeft (now : Nat) : Nat :=
  let intervalStart := now / TOURNAMENT_DURATION_MS * TOURNAMENT_DURATION_MS
  let elapsed := now - intervalStart
  if PLAY_TIME_MS ≤ elapsed then 0 else PLAY_TIME_MS - elapsed

/-- getTournamentTimeLeft (server.js lines 645 to 677): remaining play time of
the given tournament, falling back to the rolling slot when no custom timing
is found. -/
def getTournamentTimeLeft (r : RedisState) (tid : Option TId) (now : Nat) : Nat :=
  match tid with
  | some id =>
    match getCustomTournamentTiming r id now with
    | some c =>
      let elapsed := now - c.startTime
      if c.playTime ≤ elapsed then 0 else c.playTime - elapsed
    | none => defaultTimeLeft now
  | none => defaultTimeLeft now

/-- The three phases: p = playing, l = leaderboard, n = none. -/
inductive Phase : Type where
  | p
  | l
  | n
deriving DecidableEq

/-- getTournamentPhase (server.js lines 679 to 706). -/
def getTournamentPhase (r : RedisState) (tid : Option TId) (now : Nat) : Phase :=
  match tid with
  | none => Phase.n
  | some id =>
    match getCustomTournamentTiming r id now with
    | some c => if now - c.startTime < c.playTime then Phase.p else Phase.l
    | none =>
      let intervalStart := now / TOURNAMENT_DURATION_MS * TOURNAMENT_DURATION_MS
      if now - intervalStart < PLAY_TIME_MS then Phase.p else Phase.l

/-- getLeaderboardTimeLeft (server.js lines 708 to 726): ms until the next
tournament starts. -/
def getLeaderboardTimeLeft (r : RedisState) (tid : Option TId) (now : Nat) : Nat :=
  match tid with
  | none => 0
  | some id =>
    match getCustomTournamentTiming r id now with
    | some c =>
      let totalDuration :=
        c.playTime + (if c.leaderboardTime = 0 then LEADERBOARD_TIME_MS else c.leaderboardTime)
      totalDuration - (now - c.startTime)
    | none =>
      let intervalStart := now / TOURNAMENT_DURATION_MS * TOURNAMENT_DURATION_MS
      TOURNAMENT_DURATION_MS - (now - intervalStart)

/-- One per-kind rate budget. -/
structure RateLimit : Type where
  max : Nat
  window : Nat
deriving DecidableEq

/-- RATE_LIMITS (server.js lines 805 to 810): 10 inits per minute, 5 starts
per 10 seconds, 10 stops per 20 seconds, 20 packets per second for anything
else. -/
def RATE_LIMITS (event : String) : RateLimit :=
  if event = "ig" then ⟨10, 60 * 1000⟩
  else if event = "st" then ⟨5, 10 * 1000⟩
  else if event = "sp" then ⟨10, 20 * 1000⟩
  else ⟨20, 1000⟩

/-- The requestCounts map: (socket id, event kind) to the timestamps of
admitted events. -/
def RC : Type := List ((String × String) × List Nat)

instance : DecidableEq RC := by
  unfold RC
  infer_instance

/-- checkRateLimit (server.js lines 814 to 835): sliding-window admission.
Timestamps outside the window are filtered out; if at least max remain the
event is rejected (and the stored list is left as it was, since the source
only writes the filtered list back on admission); otherwise the current
timestamp is appended and stored. -/
def checkRateLimit (rc : RC) (sock event : String) (now : Nat) : Bool × RC :=
  let limit := RATE_LIMITS event
  let ts := (alookup rc (sock, event)).getD []
  let newTs := ts.filter (fun t => decide (now - t < limit.window))
  if limit.max ≤ newTs.length then (false, rc)
  else (true, aset rc (sock, event) (newTs ++ [now]))

/-- Session status (server.js session.status strings ready, running,
finished). -/
inductive SStatus : Type where
  | ready
  | running
  | finished
deriving DecidableEq

/-- Session mode: p = practice, t = tournament. -/
inductive Mode : Type where
  | practice
  | tournament
deriving DecidableEq

/-- The per-connection session (server.js lines 1395 to 1404). -/
structure Session : Type where
  userId : String
  targetTime : Nat
  startTime : Nat
  status : SStatus
  bestScore : Option Nat
  tournamentId : TId
  isVerified : Bool
  mode : Mode
deriving DecidableEq

/-- One leaderboard snapshot row. -/
structure LBEntry : Type where
  user : String
  score : Nat
deriving DecidableEq

/-- The grd (game ready data) response of the ig handler.  The no-tournament
early reply (server.js lines 1332 to 1339) sends t 0, b -1, r -1, tl 0, a
null tid and noTournament true and omits ph and ltl, which this embedding
renders as Phase.n and 0. -/
structure GrdResp : Type where
  t : Nat
  b : Int
  r : Int
  tl : Nat
  tid : Option TId
  ph : Phase
  ltl : Nat
  noTournament : Bool
deriving DecidableEq

/-- The gr (game result) response of the sp handler (server.js lines 1537 to
1551).  The source object literal repeats the tl and tid fields; the second
occurrence carries the same values, so a single field models both. -/
structure GrResp : Type where
  w : Nat
  d : Nat
  ft : Int
  tt : Nat
  r : Option Nat
  bs : Option Nat
  nr : Bool
  tl : List LBEntry
  tid : TId
  rem : Nat
  ph : Phase
deriving DecidableEq

/-- Everything a handler can emit to its socket or broadcast. -/
inductive Emit : Type where
  | toast (msg : String)
  | grd (resp : GrdResp)
  | gameOverInvalid
  | gr (resp : GrResp)
  | tu (ph : Phase) (tl : Nat) (ltl : Nat) (tid : Option TId)
  | touEnd (tid : TId) (winners : List LBEntry)
deriving DecidableEq

/-- The whole server state touched by the core: redis, the in-memory session
store, the rate-limiter map, the leaderboard cache triple (server.js lines
732 to 734), the global tournament management variables (lines 843, 844, 862,
863), and the external health store (the attempt-resource collaborator, not
read by the server.js core handlers). -/
structure ServerState : Type where
  redis : RedisState
  sessions : List (String × Session)
  requestCounts : RC
  cachedTop3 : List LBEntry
  lastLeaderboardUpdate : Nat
  currentCachedTournamentId : Option TId
  currentTournamentKey : Option TId
  autoTournamentEnabled : Bool
  lastBroadcastPhase : Option Phase
  lastArchivedTournament : Option TId
  health : List (String × Nat)
deriving DecidableEq

/-- refreshLeaderboardCache (server.js lines 737 to 771): reuse the snapshot
only while it is younger than 10 seconds and was fetched for the same
rolling-slot tournament key; otherwise fetch the top three of the current
slot key and restamp the cache. -/
def refreshLeaderboardCache (s : ServerState) (now : Nat) : ServerState :=
  let currentTournamentId := getTournamentKey now
  if now - s.lastLeaderboardUpdate < 10000 ∧ s.currentCachedTournamentId = some currentTournamentId
  then s
  else
    { s with
      cachedTop3 := (ztop3 s.redis.zsets currentTournamentId).map (fun e => LBEntry.mk e.member e.score),
      lastLeaderboardUpdate := now,
      currentCachedTournamentId := some currentTournamentId }

/-- The tail of the ig handler (server.js lines 1349 to 1444) once a
tournament id has been resolved: get or lazily create the shared target (the
setex TTL is the fixed default duration), fetch the existing best score and
rank in tournament mode, push the zscore reply through the JavaScript
truthiness coercion of line 1392, store a fresh ready session keyed by the
socket id (overwriting any prior one), and answer with the grd payload. -/
def igFinish (s : ServerState) (sock userId : String) (isVerified : Bool) (mode : Mode)
    (tid : TId) (driver : Driver) (fresh : Nat) (now : Nat) : ServerState × List Emit :=
  let targetLookup : Option Nat :=
    if mode = Mode.tournament then getTarget s.redis tid now else none
  let targetTime : Nat :=
    match mode, targetLookup with
    | Mode.tournament, some v => v
    | Mode.tournament, none => fresh
    | Mode.practice, _ => fresh
  let s1 : ServerState :=
    match mode, targetLookup with
    | Mode.tournament, none => { s with redis := setTarget s.redis tid fresh now }
    | _, _ => s
  let scoreReply : JVal :=
    if mode = Mode.tournament then zscoreReply driver (zscore s1.redis.zsets tid userId)
    else JVal.jnull
  let currentRank : Option Nat :=
    if mode = Mode.tournament then zrank s1.redis.zsets tid userId else none
  let bestScore : Option Nat :=
    if scoreReply.truthy then some scoreReply.toNatVal else none
  let sess : Session :=
    ⟨userId, targetTime, 0, SStatus.ready, bestScore, tid, isVerified, mode⟩
  let s2 : ServerState := { s1 with sessions := aset s1.sessions sock sess }
  let tl := getTournamentTimeLeft s2.redis (some tid) now
  let ph := getTournamentPhase s2.redis (some tid) now
  let ltl := getLeaderboardTimeLeft s2.redis (some tid) now
  (s2,
    [Emit.grd
      ⟨targetTime,
        (match bestScore with | some b => (b : Int) | none => -1),
        (match currentRank with | some rk => (rk : Int) + 1 | none => -1),
        tl, some tid, ph, ltl, false⟩])

/-- The ig handler (server.js lines 1289 to 1445).  The identity inputs
reflect the source: dataU is the client-declared id (falling back to the
socket id when empty), tokenUid is the uid of a successfully verified token
under secure mode (none covers insecure mode, a missing token and a failed
verification, all of which keep the client-declared identity), dataM is the
raw mode character (anything other than p means tournament), fresh is the
Math.random draw used if a new target is needed.  In tournament mode with no
current tournament key, auto-rotation enabled creates the rolling-slot key,
while auto-rotation disabled answers the no-tournament grd payload and stops
before any target or session is created. -/
def igStep (s : ServerState) (sock dataU : String) (tokenUid : Option String) (dataM : Char)
    (driver : Driver) (fresh : Nat) (now : Nat) : ServerState × List Emit :=
  let rl := checkRateLimit s.requestCounts sock "ig" now
  if rl.1 then
    let s1 : ServerState := { s with requestCounts := rl.2 }
    let s2 := refreshLeaderboardCache s1 now
    let userId0 := if dataU = "" then sock else dataU
    let userId := match tokenUid with | some uid => uid | none => userId0
    let isVerified := tokenUid.isSome
    let mode : Mode := if dataM = 'p' then Mode.practice else Mode.tournament
    match mode, s2.currentTournamentKey with
    | Mode.tournament, none =>
      if s2.autoTournamentEnabled then
        let key := getTournamentKey now
        igFinish { s2 with currentTournamentKey := some key } sock userId isVerified
          Mode.tournament key driver fresh now
      else
        (s2, [Emit.grd ⟨0, -1, -1, 0, none, Phase.n, 0, true⟩])
    | Mode.tournament, some k =>
      igFinish s2 sock userId isVerified Mode.tournament k driver fresh now
    | Mode.practice, _ =>
      igFinish s2 sock userId isVerified Mode.practice (getTournamentKey now) driver fresh now
  else
    (s, [Emit.toast "Too many requests. Please wait."])

/-- The st handler (server.js lines 1448 to 1467): silently dropped when the
rate limiter denies it or no session exists; otherwise it unconditionally
records serverStart now and sets the status to running, with no check of the
current status and no consultation of any external attempt resource.  The
10 Hz advisory elapsed-time pushes it schedules are display-only and never
feed back into state. -/
def stStep (s : ServerState) (sock : String) (now : Nat) : ServerState × List Emit :=
  let rl := checkRateLimit s.requestCounts sock "st" now
  if rl.1 then
    let s1 : ServerState := { s with requestCounts := rl.2 }
    match alookup s1.sessions sock with
    | none => (s1, [])
    | some sess =>
      ({ s1 with
          sessions := aset s1.sessions sock { sess with startTime := now, status := SStatus.running } },
        [])
  else (s, [])

/-- The scoring tail of the sp handler (server.js lines 1491 to 1551), run
only when the session status is running: mark the session finished, compute
serverDuration, diff and win from server-side timestamps alone, recompute the
tournament id from the attempt's start time (line 1504), and in tournament
mode write the diff to the sorted set only when it beats the session's best,
re-reading the rank either way; the reply carries the cached leaderboard
snapshot without refreshing it, while the remaining-time and phase fields use
the id locked in the session (the source falls back to currentTournamentKey
only when session.tournamentId is falsy, which cannot happen since a session
always stores a non-empty tournament id). -/
def spScore (s : ServerState) (sock : String) (sess : Session) (now : Nat) :
    ServerState × List Emit :=
  let serverDuration : Int := (now : Int) - (sess.startTime : Int)
  let target := sess.targetTime
  let diff : Nat := (serverDuration - (target : Int)).natAbs
  let win : Bool := decide (diff = 0)
  let ctid := getTournamentKey sess.startTime
  let improves : Bool :=
    match sess.bestScore with
    | none => true
    | some b => decide (diff < b)
  if sess.mode = Mode.tournament then
    if improves then
      let sess2 := { sess with status := SStatus.finished, bestScore := some diff }
      let zs := zadd s.redis.zsets ctid diff sess.userId
      let rank := (zrank zs ctid sess.userId).map (fun i => i + 1)
      let s1 : ServerState :=
        { s with redis := { s.redis with zsets := zs }, sessions := aset s.sessions sock sess2 }
      (s1,
        [Emit.gr
          ⟨if win then 1 else 0, diff, serverDuration, target, rank, some diff, true,
            s1.cachedTop3, ctid,
            getTournamentTimeLeft s1.redis (some sess.tournamentId) now,
            getTournamentPhase s1.redis (some sess.tournamentId) now⟩])
    else
      let sess2 := { sess with status := SStatus.finished }
      let rank := (zrank s.redis.zsets ctid sess.userId).map (fun i => i + 1)
      let s1 : ServerState := { s with sessions := aset s.sessions sock sess2 }
      (s1,
        [Emit.gr
          ⟨if win then 1 else 0, diff, serverDuration, target, rank, sess.bestScore, false,
            s1.cachedTop3, ctid,
            getTournamentTimeLeft s1.redis (some sess.tournamentId) now,
            getTournamentPhase s1.redis (some sess.tournamentId) now⟩])
  else
    let sess2 := { sess with status := SStatus.finished }
    let s1 : ServerState := { s with sessions := aset s.sessions sock sess2 }
    (s1,
      [Emit.gr
        ⟨if win then 1 else 0, diff, serverDuration, target, none, sess.bestScore, false,
          s1.cachedTop3, ctid,
          getTournamentTimeLeft s1.redis (some sess.tournamentId) now,
          getTournamentPhase s1.redis (some sess.tournamentId) now⟩])

/-- The sp handler (server.js lines 1470 to 1552): silently dropped when the
rate limiter denies it; an error reply when no session exists; a silent
no-op when the status is not running (the double-submission guard of line
1490); otherwise the scoring tail. -/
def spStep (s : ServerState) (sock : String) (now : Nat) : ServerState × List Emit :=
  let rl := checkRateLimit s.requestCounts sock "sp" now
  if rl.1 then
    let s1 : ServerState := { s with requestCounts := rl.2 }
    match alookup s1.sessions sock with
    | none => (s1, [Emit.gameOverInvalid])
    | some sess =>
      if sess.status = SStatus.running then spScore s1 sock sess now else (s1, [])
  else (s, [])

/-- The broadcast of a tournament end (endTournament, server.js lines 1034
to 1106): the top three winners of the old key.  Its other effects (history
list push, Supabase archive) are fire-and-forget writes to stores the core
never reads back. -/
def endTournamentEmit (r : RedisState) (tid : TId) : Emit :=
  Emit.touEnd tid ((ztop3 r.zsets tid).map (fun e => LBEntry.mk e.member e.score))

/-- Whether the current tournament key denotes a custom (scheduled or
manual) tournament (server.js lines 883 to 884). -/
def isCustomKey : Option TId → Bool
  | some (TId.manual _) => true
  | some (TId.scheduled _ _) => true
  | _ => false

/-- One run of the 10-second tournament check interval (server.js lines 879
to 1021).  A custom tournament ends once its total duration has elapsed (or
its timing keys have expired), after which the rolling slot resumes only if
auto-rotation is enabled; otherwise a change of rolling slot ends the old
tournament and starts the new slot only if auto-rotation is enabled.  The
phase is then recomputed from wall-clock time and broadcast only when it
differs from the last broadcast phase, recording the archival hand-off on
the play-to-leaderboard transition. -/
def tick (s : ServerState) (now : Nat) : ServerState × List Emit :=
  let step1 : ServerState × List Emit :=
    if isCustomKey s.currentTournamentKey then
      match s.currentTournamentKey with
      | some k =>
        match getCustomTournamentTiming s.redis k now with
        | some c =>
          let lbt := if c.leaderboardTime = 0 then TOURNAMENT_DURATION_MS - c.playTime
            else c.leaderboardTime
          let totalDuration := c.playTime + lbt
          if totalDuration ≤ now - c.startTime then
            ({ s with currentTournamentKey :=
                if s.autoTournamentEnabled then some (getTournamentKey now) else none },
              [endTournamentEmit s.redis k])
          else (s, [])
        | none =>
          ({ s with currentTournamentKey :=
              if s.autoTournamentEnabled then some (getTournamentKey now) else none },
            [endTournamentEmit s.redis k])
      | none => (s, [])
    else
      let newKey := getTournamentKey now
      if s.currentTournamentKey = some newKey then (s, [])
      else
        let ends :=
          match s.currentTournamentKey with
          | some old => [endTournamentEmit s.redis old]
          | none => []
        ({ s with currentTournamentKey :=
            if s.autoTournamentEnabled then some newKey else none },
          ends)
  let s1 := step1.1
  let ph := getTournamentPhase s1.redis s1.currentTournamentKey now
  if s1.lastBroadcastPhase = some ph then (s1, step1.2)
  else
    let prev := s1.lastBroadcastPhase
    let s2 : ServerState := { s1 with lastBroadcastPhase := some ph }
    let tl := getTournamentTimeLeft s1.redis s1.currentTournamentKey now
    let ltl := getLeaderboardTimeLeft s1.redis s1.currentTournamentKey now
    let s3 : ServerState :=
      if prev = some Phase.p ∧ ph = Phase.l ∧ s2.currentTournamentKey ≠ none ∧
          s2.lastArchivedTournament ≠ s2.currentTournamentKey
      then { s2 with lastArchivedTournament := s2.currentTournamentKey }
      else s2
    (s3, step1.2 ++ [Emit.tu ph tl ltl s2.currentTournamentKey])

/-- An empty server state with the rolling slot starting at 0 active and
auto-rotation enabled. -/
def baseState : ServerState :=
  { redis := ⟨[], [], []⟩, sessions := [], requestCounts := [], cachedTop3 := [],
    lastLeaderboardUpdate := 0, currentCachedTournamentId := none,
    currentTournamentKey := some (TId.slot 0), autoTournamentEnabled := true,
    lastBroadcastPhase := none, lastArchivedTournament := none, health := [] }

/-- A running tournament-mode session for C1: target 5000 ms, started at
server time 1000. -/
def C1sess : Session :=
  ⟨"alice", 5000, 1000, SStatus.running, none, TId.slot 0, false, Mode.tournament⟩

/-- Server state for the C1 concrete evaluations. -/
def C1state : ServerState :=
  { baseState with sessions := [("s1", C1sess)] }

/-- For C3: the ranking store already holds a perfect best of 0 for alice in
the slot-0 tournament, whose shared target 5000 is stored with expiry
900000. -/
def C3state : ServerState :=
  { baseState with
    redis := ⟨[⟨TId.slot 0, "alice", 0⟩], [(TId.slot 0, (5000, 900000))], []⟩ }

/-- For C3: alice re-inits at time 100, starts at 1000 and stops at 6125
(timing error 125), all within the slot-0 tournament; the driver determines
the JavaScript type of the zscore reply carrying her stored 0. -/
def C3run (d : Driver) : ServerState × List Emit :=
  let r1 := igStep C3state "s1" "alice" none 't' d 4444 100
  let r2 := stStep r1.1 "s1" 1000
  spStep r2.1 "s1" 6125

/-- For C4: a running session locked at init to the manual tournament with
id tournament_manual_77, whose attempt started at server time 900000. -/
def C4sess : Session :=
  ⟨"bob", 5000, 900000, SStatus.running, none, TId.manual 77, false, Mode.tournament⟩

/-- Server state for the C4 counterexample. -/
def C4state : ServerState :=
  { baseState with
    sessions := [("s1", C4sess)], currentTournamentKey := some (TId.manual 77) }

/-- For C5: the custom timing of the scheduled tournament with id
tournament_scheduled_7_0, fired at time 0: total duration 30 minutes, play
25 minutes, leaderboard 5 minutes, startTime 0.  The scheduled-execution
path (server.js lines 420 to 430) writes all four timing keys, startTime
included, with a setex expiry equal to the custom duration (1800 seconds
here), so the record is observable for the tournament's whole lifetime. -/
def C5timing : CustomTiming := ⟨1800000, 1500000, 300000, 0, 1800000⟩

/-- Server state for C5, as the scheduled-execution path leaves it: the
scheduled tournament is the current tournament key (server.js line 423) and
its timing keys are stored. -/
def C5state : ServerState :=
  { baseState with
    redis := ⟨[], [], [(TId.scheduled 7 0, C5timing)]⟩,
    currentTournamentKey := some (TId.scheduled 7 0), autoTournamentEnabled := false }

/-- For C5: player A inits at time 100 (fresh draw 5000), player B inits at
time 1000000, still mid-play (fresh draw 6000).  A run of the 10-second
check interval is interposed at 999990: its custom branch finds the timing
record (alive until 1800000), sees the elapsed time below the total
duration, and keeps the scheduled tournament current. -/
def C5run : (ServerState × List Emit) × List Emit :=
  let r1 := igStep C5state "a" "A" none 't' Driver.ioredis 5000 100
  let rt := tick r1.1 999990
  let r2 := igStep rt.1 "b" "B" none 't' Driver.ioredis 6000 1000000
  (r2, r1.2)

/-- For C8: a ready tournament-mode session whose player has an exhausted
external attempt resource (health 0). -/
def C8sess : Session :=
  ⟨"bob", 5000, 0, SStatus.ready, none, TId.slot 0, false, Mode.tournament⟩

/-- Server state for the C8 counterexample. -/
def C8state : ServerState :=
  { baseState with sessions := [("s1", C8sess)], health := [("bob", 0)] }

/-- For C9: the slot-0 tournament has an entry for bob and a stored target;
the cache is empty and unstamped. -/
def C9state : ServerState :=
  { baseState with
    redis := ⟨[⟨TId.slot 0, "bob", 50⟩], [(TId.slot 0, (5000, 900000))], []⟩ }

/-- For C9: bob inits at 100 (the cache refreshes for slot 0), starts at 200,
the check interval runs at 900500 (the rolling slot has changed, the active
tournament becomes slot 900000), and bob stops at 900600. -/
def C9run : (ServerState × List Emit) × ServerState :=
  let r1 := igStep C9state "s1" "bob" none 't' Driver.ioredis 1111 100
  let r2 := stStep r1.1 "s1" 200
  let r3 := tick r2.1 900500
  (spStep r3.1 "s1" 900600, r3.1)

/-- A running tournament-mode session used by the C2 witness. -/
def C2sess : Session :=
  ⟨"carol", 5000, 1000, SStatus.running, none, TId.slot 0, false, Mode.tournament⟩

/-- Server state for the C2 witness. -/
def C2state : ServerState :=
  { baseState with sessions := [("s2", C2sess)] }

/-- Server state for the C7 witness: no current tournament and auto-rotation
disabled. -/
def C7state : ServerState :=
  { baseState with currentTournamentKey := none, autoTournamentEnabled := false }

/-- Server state for the C9 witness: a cache stamped at time 100 for the
slot-0 tournament. -/
def C9cachedState : ServerState :=
  { C9state with
    cachedTop3 := [⟨"bob", 50⟩], lastLeaderboardUpdate := 100,
    currentCachedTournamentId := some (TId.slot 0) }

/-- A finished tournament-mode session used by the C10 witness: its attempt
timing is discarded by a later start. -/
def C10sess : Session :=
  ⟨"dave", 5000, 1000, SStatus.finished, some 125, TId.slot 0, false, Mode.tournament⟩

/-- Server state for the C10 witness. -/
def C10state : ServerState :=
  { baseState with sessions := [("s3", C10sess)] }

/-- Processing a list of arrival times through checkRateLimit at one
(socket, event) key, threading the requestCounts map, and collecting the
admission verdicts. -/
def admitRun (sock ev : String) : RC → List Nat → List Bool × RC
  | rc, [] => ([], rc)
  | rc, t :: rest =>
    let r := checkRateLimit rc sock ev t
    let rest2 := admitRun sock ev r.2 rest
    (r.1 :: rest2.1, rest2.2)

/-! General lemmas about the embedding, followed by the per-claim theorems. -/

theorem alookup_aset_self {α β : Type} [DecidableEq α] (l : List (α × β)) (k : α) (v : β) :
    alookup (aset l k v) k = some v := by
  induction l with
  | nil => simp [aset, alookup]
  | cons hd t ih =>
    obtain ⟨a, b⟩ := hd
    by_cases h : a = k
    · simp [aset, alookup, h]
    · simp [aset, alookup, h, ih]

theorem alookup_aset_ne {α β : Type} [DecidableEq α] (l : List (α × β)) (k k2 : α) (v : β)
    (h : k2 ≠ k) : alookup (aset l k v) k2 = alookup l k2 := by
  induction l with
  | nil => simp [aset, alookup, Ne.symm h]
  | cons hd t ih =>
    obtain ⟨a, b⟩ := hd
    by_cases ha : a = k
    · subst ha
      simp [aset, alookup, Ne.symm h]
    · simp only [aset, ha, if_false]
      by_cases ha2 : a = k2
      · simp [alookup, ha2]
      · simp [alookup, ha2, ih]

theorem refresh_sessions (s : ServerState) (now : Nat) :
    (refreshLeaderboardCache s now).sessions = s.sessions := by
  simp only [refreshLeaderboardCache]
  split <;> rfl

theorem refresh_redis (s : ServerState) (now : Nat) :
    (refreshLeaderboardCache s now).redis = s.redis := by
  simp only [refreshLeaderboardCache]
  split <;> rfl

theorem refresh_requestCounts (s : ServerState) (now : Nat) :
    (refreshLeaderboardCache s now).requestCounts = s.requestCounts := by
  simp only [refreshLeaderboardCache]
  split <;> rfl

theorem refresh_currentTournamentKey (s : ServerState) (now : Nat) :
    (refreshLeaderboardCache s now).currentTournamentKey = s.currentTournamentKey := by
  simp only [refreshLeaderboardCache]
  split <;> rfl

theorem refresh_auto (s : ServerState) (now : Nat) :
    (refreshLeaderboardCache s now).autoTournamentEnabled = s.autoTournamentEnabled := by
  simp only [refreshLeaderboardCache]
  split <;> rfl

/-! General lemmas about the handlers. -/

theorem checkRateLimit_allow (rc : RC) (sock ev : String) (now : Nat)
    (h : (((alookup rc (sock, ev)).getD []).filter
        (fun t => decide (now - t < (RATE_LIMITS ev).window))).length < (RATE_LIMITS ev).max) :
    checkRateLimit rc sock ev now =
      (true, aset rc (sock, ev)
        (((alookup rc (sock, ev)).getD []).filter
          (fun t => decide (now - t < (RATE_LIMITS ev).window)) ++ [now])) := by
  simp only [checkRateLimit]
  rw [if_neg (Nat.not_le.mpr h)]

theorem checkRateLimit_reject (rc : RC) (sock ev : String) (now : Nat)
    (h : (RATE_LIMITS ev).max ≤ (((alookup rc (sock, ev)).getD []).filter
        (fun t => decide (now - t < (RATE_LIMITS ev).window))).length) :
    checkRateLimit rc sock ev now = (false, rc) := by
  simp only [checkRateLimit]
  rw [if_pos h]

theorem spStep_denied (s : ServerState) (sock : String) (now : Nat)
    (h : (checkRateLimit s.requestCounts sock "sp" now).1 = false) :
    spStep s sock now = (s, []) := by
  simp [spStep, h]

theorem stStep_denied (s : ServerState) (sock : String) (now : Nat)
    (h : (checkRateLimit s.requestCounts sock "st" now).1 = false) :
    stStep s sock now = (s, []) := by
  simp [stStep, h]

theorem igStep_denied (s : ServerState) (sock dataU : String) (tokenUid : Option String)
    (dataM : Char) (driver : Driver) (fresh now : Nat)
    (h : (checkRateLimit s.requestCounts sock "ig" now).1 = false) :
    igStep s sock dataU tokenUid dataM driver fresh now =
      (s, [Emit.toast "Too many requests. Please wait."]) := by
  simp [igStep, h]

theorem spStep_notRunning (s : ServerState) (sock : String) (now : Nat) (sess : Session)
    (hrl : (checkRateLimit s.requestCounts sock "sp" now).1 = true)
    (hsess : alookup s.sessions sock = some sess)
    (hrun : sess.status ≠ SStatus.running) :
    spStep s sock now =
      ({ s with requestCounts := (checkRateLimit s.requestCounts sock "sp" now).2 }, []) := by
  simp [spStep, hrl, hsess, hrun]

theorem spStep_running (s : ServerState) (sock : String) (now : Nat) (sess : Session)
    (hrl : (checkRateLimit s.requestCounts sock "sp" now).1 = true)
    (hsess : alookup s.sessions sock = some sess)
    (hrun : sess.status = SStatus.running) :
    spStep s sock now =
      spScore { s with requestCounts := (checkRateLimit s.requestCounts sock "sp" now).2 }
        sock sess now := by
  simp [spStep, hrl, hsess, hrun]

theorem stStep_admitted (s : ServerState) (sock : String) (now : Nat) (sess : Session)
    (hrl : (checkRateLimit s.requestCounts sock "st" now).1 = true)
    (hsess : alookup s.sessions sock = some sess) :
    stStep s sock now =
      ({ s with
          requestCounts := (checkRateLimit s.requestCounts sock "st" now).2,
          sessions :=
            aset s.sessions sock { sess with startTime := now, status := SStatus.running } },
        []) := by
  simp [stStep, hrl, hsess]

/-- The shape of every scoring reply: a single gr emit whose w, d, ft and tt
fields are determined by the server-side timestamps and the locked target
alone, whose tid field is the key recomputed from the attempt's start time,
whose snapshot is the cached leaderboard, and whose rem and ph fields use
the locked tournament id. -/
theorem spScore_shape (s : ServerState) (sock : String) (sess : Session) (now : Nat) :
    ∃ (resp : GrResp) (s1 : ServerState),
      spScore s sock sess now = (s1, [Emit.gr resp])
      ∧ resp.d = ((now : Int) - (sess.startTime : Int) - (sess.targetTime : Int)).natAbs
      ∧ resp.ft = (now : Int) - (sess.startTime : Int)
      ∧ resp.tt = sess.targetTime
      ∧ (resp.w = 1 ↔ resp.d = 0)
      ∧ (resp.w = 0 ↔ resp.d ≠ 0)
      ∧ resp.tl = s.cachedTop3
      ∧ resp.tid = getTournamentKey sess.startTime
      ∧ resp.rem = getTournamentTimeLeft s1.redis (some sess.tournamentId) now
      ∧ resp.ph = getTournamentPhase s1.redis (some sess.tournamentId) now := by
  rcases hm : sess.mode with _ | _
  · simp only [spScore, hm]
    rw [if_neg (show Mode.practice ≠ Mode.tournament by decide)]
    refine ⟨_, _, rfl, rfl, rfl, rfl, ?_, ?_, rfl, rfl, rfl, rfl⟩ <;>
      by_cases hz : ((now : Int) - (sess.startTime : Int) - (sess.targetTime : Int)).natAbs = 0 <;>
      simp [hz]
  · rcases hbs : sess.bestScore with _ | b
    · simp only [spScore, hm, hbs]
      simp only [if_true]
      refine ⟨_, _, rfl, rfl, rfl, rfl, ?_, ?_, rfl, rfl, rfl, rfl⟩ <;>
        by_cases hz : ((now : Int) - (sess.startTime : Int) - (sess.targetTime : Int)).natAbs = 0 <;>
        simp [hz]
    · by_cases hd : ((now : Int) - (sess.startTime : Int) - (sess.targetTime : Int)).natAbs < b
      · simp only [spScore, hm, hbs]
        simp only [if_true, decide_eq_true_eq]
        rw [if_pos hd]
        refine ⟨_, _, rfl, rfl, rfl, rfl, ?_, ?_, rfl, rfl, rfl, rfl⟩ <;>
          by_cases hz : ((now : Int) - (sess.startTime : Int) - (sess.targetTime : Int)).natAbs = 0 <;>
          simp [hz]
      · simp only [spScore, hm, hbs]
        simp only [if_true, decide_eq_true_eq]
        rw [if_neg hd]
        refine ⟨_, _, rfl, rfl, rfl, rfl, ?_, ?_, rfl, rfl, rfl, rfl⟩ <;>
          by_cases hz : ((now : Int) - (sess.startTime : Int) - (sess.targetTime : Int)).natAbs = 0 <;>
          simp [hz]

/-- The session stored by a scoring stop is the same session marked
finished, up to the best score. -/
theorem spScore_session (s : ServerState) (sock : String) (sess : Session) (now : Nat) :
    ∃ b : Option Nat,
      alookup (spScore s sock sess now).1.sessions sock =
        some { sess with status := SStatus.finished, bestScore := b } := by
  rcases hm : sess.mode with _ | _
  · simp only [spScore, hm]
    rw [if_neg (show Mode.practice ≠ Mode.tournament by decide)]
    exact ⟨_, alookup_aset_self _ _ _⟩
  · rcases hbs : sess.bestScore with _ | b
    · simp only [spScore, hm, hbs]
      simp only [if_true]
      exact ⟨_, alookup_aset_self _ _ _⟩
    · by_cases hd : ((now : Int) - (sess.startTime : Int) - (sess.targetTime : Int)).natAbs < b
      · simp only [spScore, hm, hbs]
        simp only [if_true, decide_eq_true_eq]
        rw [if_pos hd]
        exact ⟨_, alookup_aset_self _ _ _⟩
      · simp only [spScore, hm, hbs]
        simp only [if_true, decide_eq_true_eq]
        rw [if_neg hd]
        exact ⟨_, alookup_aset_self _ _ _⟩

theorem find?_filter_keep (p q : ZEntry → Bool) (zs : List ZEntry)
    (h : ∀ e, p e = true → q e = true) :
    (zs.filter q).find? p = zs.find? p := by
  induction zs with
  | nil => rfl
  | cons e t ih =>
    by_cases hq : q e = true
    · rw [List.filter_cons_of_pos hq]
      by_cases hp : p e = true
      · rw [List.find?_cons_of_pos _ hp, List.find?_cons_of_pos _ hp]
      · rw [List.find?_cons_of_neg _ hp, List.find?_cons_of_neg _ hp, ih]
    · rw [List.filter_cons_of_neg hq]
      have hp : ¬ p e = true := fun hpe => hq (h e hpe)
      rw [List.find?_cons_of_neg _ hp, ih]

/-- zadd touches only its own tournament and member: every other pair's
zscore is unchanged. -/
theorem zscore_zadd_other (zs : List ZEntry) (tid t : TId) (score : Nat) (m p : String)
    (h : t ≠ tid) :
    zscore (zadd zs tid score m) t p = zscore zs t p := by
  unfold zscore zadd
  rw [List.find?_cons_of_neg _ (by simp [Ne.symm h])]
  rw [find?_filter_keep]
  intro e hpe
  simp only [Bool.and_eq_true, decide_eq_true_eq] at hpe
  simp [hpe.1, h]

/-- A scoring stop writes at most under the tournament key recomputed from
the attempt's start time: every other tournament's scores are untouched. -/
theorem spScore_zsets_other (s : ServerState) (sock : String) (sess : Session) (now : Nat)
    (t : TId) (p : String) (h : t ≠ getTournamentKey sess.startTime) :
    zscore (spScore s sock sess now).1.redis.zsets t p = zscore s.redis.zsets t p := by
  rcases hm : sess.mode with _ | _
  · simp only [spScore, hm]
    rw [if_neg (show Mode.practice ≠ Mode.tournament by decide)]
  · rcases hbs : sess.bestScore with _ | b
    · simp only [spScore, hm, hbs, if_true]
      exact zscore_zadd_other _ _ _ _ _ _ h
    · by_cases hd : ((now : Int) - (sess.startTime : Int) - (sess.targetTime : Int)).natAbs < b
      · simp only [spScore, hm, hbs, if_true, decide_eq_true_eq]
        rw [if_pos hd]
        exact zscore_zadd_other _ _ _ _ _ _ h
      · simp only [spScore, hm, hbs, if_true, decide_eq_true_eq]
        rw [if_neg hd]

/-- A scoring stop never touches the leaderboard cache triple. -/
theorem spScore_cache (s : ServerState) (sock : String) (sess : Session) (now : Nat) :
    (spScore s sock sess now).1.cachedTop3 = s.cachedTop3
    ∧ (spScore s sock sess now).1.lastLeaderboardUpdate = s.lastLeaderboardUpdate
    ∧ (spScore s sock sess now).1.currentCachedTournamentId = s.currentCachedTournamentId := by
  rcases hm : sess.mode with _ | _
  · simp [spScore, hm]
  · rcases hbs : sess.bestScore with _ | b
    · simp [spScore, hm, hbs]
    · by_cases hd : ((now : Int) - (sess.startTime : Int) - (sess.targetTime : Int)).natAbs < b
      · simp [spScore, hm, hbs, hd]
      · simp [spScore, hm, hbs, hd]

/-- The sliding-window run lemma: processing arrivals that all lie in one
window of length W at one key, starting from a map whose stored list for
that key is the already-admitted list done (all inside the same window),
admits an arrival exactly while fewer than max timestamps are stored. -/
theorem admitRun_window (sock ev : String) :
    ∀ (ts : List Nat) (rc : RC) (done : List Nat) (lo : Nat),
      (alookup rc (sock, ev)).getD [] = done →
      (∀ t ∈ done, lo ≤ t) →
      (∀ t ∈ ts, lo ≤ t) →
      (∀ t ∈ ts, t - lo < (RATE_LIMITS ev).window) →
      (admitRun sock ev rc ts).1 =
        (List.range ts.length).map
          (fun i => decide (done.length + i < (RATE_LIMITS ev).max)) := by
  intro ts
  induction ts with
  | nil =>
    intro rc done lo _ _ _ _
    rfl
  | cons now rest ih =>
    intro rc done lo hdone hdlo htlo hspan
    have hfilter :
        done.filter (fun t => decide (now - t < (RATE_LIMITS ev).window)) = done := by
      apply List.filter_eq_self.mpr
      intro a ha
      have h1 : lo ≤ a := hdlo a ha
      have h2 : now - lo < (RATE_LIMITS ev).window := hspan now (List.mem_cons_self _ _)
      have h3 : now - a ≤ now - lo := Nat.sub_le_sub_left h1 now
      exact decide_eq_true (lt_of_le_of_lt h3 h2)
    have hrestlo : ∀ t ∈ rest, lo ≤ t := fun t ht => htlo t (List.mem_cons_of_mem _ ht)
    have hrestspan : ∀ t ∈ rest, t - lo < (RATE_LIMITS ev).window :=
      fun t ht => hspan t (List.mem_cons_of_mem _ ht)
    by_cases hlen : (RATE_LIMITS ev).max ≤ done.length
    · have hstep : checkRateLimit rc sock ev now = (false, rc) := by
        apply checkRateLimit_reject
        rw [hdone, hfilter]
        exact hlen
      have hunfold : (admitRun sock ev rc (now :: rest)).1 =
          false :: (admitRun sock ev rc rest).1 := by
        simp [admitRun, hstep]
      rw [hunfold, ih rc done lo hdone hdlo hrestlo hrestspan,
        List.length_cons, List.range_succ_eq_map, List.map_cons, List.map_map]
      refine congrArg₂ _ ?_ ?_
      · simp [Nat.not_lt.mpr hlen]
      · apply List.map_congr_left
        intro i _
        simp only [Function.comp]
        rw [decide_eq_decide]
        omega
    · have hstep : checkRateLimit rc sock ev now =
          (true, aset rc (sock, ev) (done ++ [now])) := by
        have := checkRateLimit_allow rc sock ev now
          (by rw [hdone, hfilter]; exact Nat.not_le.mp hlen)
        rw [hdone, hfilter] at this
        exact this
      have hunfold : (admitRun sock ev rc (now :: rest)).1 =
          true :: (admitRun sock ev (aset rc (sock, ev) (done ++ [now])) rest).1 := by
        simp [admitRun, hstep]
      have hdone2 : (alookup (aset rc (sock, ev) (done ++ [now])) (sock, ev)).getD [] =
          done ++ [now] := by
        rw [alookup_aset_self]
        rfl
      have hdlo2 : ∀ t ∈ done ++ [now], lo ≤ t := by
        intro t ht
        rcases List.mem_append.mp ht with h1 | h1
        · exact hdlo t h1
        · rw [List.mem_singleton.mp h1]
          exact htlo now (List.mem_cons_self _ _)
      rw [hunfold, ih _ _ lo hdone2 hdlo2 hrestlo hrestspan,
        List.length_cons, List.range_succ_eq_map, List.map_cons, List.map_map]
      refine congrArg₂ _ ?_ ?_
      · simp [Nat.not_le.mp hlen]
      · apply List.map_congr_left
        intro i _
        simp only [Function.comp, List.length_append, List.length_cons, List.length_nil]
        rw [decide_eq_decide]
        omega

/-! The per-claim theorems. -/

/-- C3 (code bug evaluation): the ranking store holds a stored best of 0 for
alice in the slot-0 tournament.  She re-inits, starts, and stops with timing
error 125.  Under the Upstash driver, whose zscore reply is the JavaScript
number 0, the falsy-zero coercion of server.js line 1392 turns her stored
best into null, so the stop handler treats her as having no prior best and
overwrites the stored 0 with the strictly worse 125 - contradicting the
claim that a stop whose diff is not lower never changes the stored entry,
for every stored best value including 0.  Under the ioredis driver, whose
reply is the truthy string form of 0, the same call sequence leaves the
stored 0 intact. -/
theorem C3_keep_lowest_bug_evaluation :
    zscore C3state.redis.zsets (TId.slot 0) "alice" = some 0
    ∧ (C3run Driver.upstash).1.redis.zsets = [⟨TId.slot 0, "alice", 125⟩]
    ∧ (C3run Driver.ioredis).1.redis.zsets = [⟨TId.slot 0, "alice", 0⟩]
    ∧ (0 : Nat) < 125 := by
  decide

/-- C4 (counterexample): a running session locked at init to the manual
tournament tournament_manual_77 stops at time 905000.  The stop handler
recomputes the tournament id from the attempt's start time (server.js line
1504): the score is recorded under, and the response reports, the rolling
slot key of start time 900000, not the locked manual id - under which
nothing is recorded at all. -/
theorem C4_locked_id_counterexample :
    C4sess.tournamentId = TId.manual 77
    ∧ alookup C4state.sessions "s1" = some C4sess
    ∧ (spStep C4state "s1" 905000).2 =
        [Emit.gr ⟨1, 0, 5000, 5000, some 1, some 0, true, [], TId.slot 900000, 715000, Phase.p⟩]
    ∧ TId.slot 900000 ≠ TId.manual 77
    ∧ zscore (spStep C4state "s1" 905000).1.redis.zsets (TId.slot 900000) "bob" = some 0
    ∧ zscore (spStep C4state "s1" 905000).1.redis.zsets (TId.manual 77) "bob" = none := by
  decide

/-- C5 (code bug evaluation): a scheduled tournament with a 30-minute
custom duration (25 minutes play) is current, its four timing keys stored
with the custom duration's expiry by server.js lines 426 to 430.  Player A
inits at time 100 and is issued the freshly generated target 5000, which
server.js line 1364 stores with the fixed default 900-second TTL regardless
of the custom duration.  Player B inits at time 1000000 - still mid-play,
as the reported phase p shows - after the target key has expired, so the
handler generates and issues a different target 6000 for the very same
tournament id, contradicting the claim that any two inits resolving one
tournament id receive the identical target, including custom tournaments
whose total duration differs from the default. -/
theorem C5_target_ttl_bug_evaluation :
    C5run.2 =
      [Emit.grd ⟨5000, -1, -1, 1499900, some (TId.scheduled 7 0), Phase.p, 1799900, false⟩]
    ∧ C5run.1.2 =
      [Emit.grd ⟨6000, -1, -1, 500000, some (TId.scheduled 7 0), Phase.p, 800000, false⟩]
    ∧ C5run.1.1.currentTournamentKey = some (TId.scheduled 7 0)
    ∧ (5000 : Nat) ≠ 6000 := by
  decide

/-- C8 (counterexample): a tournament-mode session whose player has an
exhausted external attempt resource (health 0) issues a rate-admitted start.
The st handler of server.js (lines 1448 to 1467) consults no attempt
resource: the start succeeds, records serverStart and sets the status to
running, and nothing resembling a no-health reply is emitted - refuting the
claim's clause that a denied attempt resource yields a no-health response
and no state change. -/
theorem C8_attempt_gate_counterexample :
    alookup C8state.health "bob" = some 0
    ∧ C8sess.mode = Mode.tournament
    ∧ (stStep C8state "s1" 500).2 = []
    ∧ alookup (stStep C8state "s1" 500).1.sessions "s1" =
        some { C8sess with startTime := 500, status := SStatus.running } := by
  decide

/-- C9 (counterexample): bob inits at time 100, which refreshes the
leaderboard cache for the slot-0 tournament, and starts at 200.  The check
interval runs at 900500, after the rolling slot has changed, making slot
900000 the currently active tournament.  Bob's stop at 900600 does not
refresh the cache (the sp handler never does): its response carries the
cached slot-0 snapshot, which is the top-N of a tournament other than the
currently active one, whose own top-N is empty - refuting the claim that a
stop response never carries a cross-tournament snapshot. -/
theorem C9_cache_scope_counterexample :
    C9run.2.currentTournamentKey = some (TId.slot 900000)
    ∧ C9run.1.2 =
        [Emit.gr ⟨0, 895400, 900400, 5000, some 1, some 50, false,
          [⟨"bob", 50⟩], TId.slot 0, 719400, Phase.p⟩]
    ∧ (ztop3 C9run.1.1.redis.zsets (TId.slot 900000)).map (fun e => LBEntry.mk e.member e.score)
        = []
    ∧ (ztop3 C9run.1.1.redis.zsets (TId.slot 0)).map (fun e => LBEntry.mk e.member e.score)
        = [⟨"bob", 50⟩]
    ∧ TId.slot 0 ≠ TId.slot 900000 := by
  decide

/-- C1: for every session whose status is RUNNING, a rate-admitted stop
computes serverDuration as the current server time minus the session's
stored serverStart (the sp event carries no payload, so no client-supplied
value can enter the computation), sets diff to the absolute difference
between serverDuration and the locked target, and reports win exactly when
diff is 0; in particular target 5000 with serverDuration 5000 yields win 1
and diff 0, and target 5000 with serverDuration 5125 yields diff 125 and
win 0. -/
theorem C1_stop_scoring :
    (∀ (s : ServerState) (sock : String) (now : Nat) (sess : Session),
      (checkRateLimit s.requestCounts sock "sp" now).1 = true →
      alookup s.sessions sock = some sess →
      sess.status = SStatus.running →
      ∃ resp : GrResp, (spStep s sock now).2 = [Emit.gr resp]
        ∧ resp.ft = (now : Int) - (sess.startTime : Int)
        ∧ resp.tt = sess.targetTime
        ∧ resp.d = ((now : Int) - (sess.startTime : Int) - (sess.targetTime : Int)).natAbs
        ∧ (resp.w = 1 ↔ resp.d = 0)
        ∧ (resp.w = 0 ↔ resp.d ≠ 0))
    ∧ (spStep C1state "s1" 6000).2 =
        [Emit.gr ⟨1, 0, 5000, 5000, some 1, some 0, true, [], TId.slot 0, 714000, Phase.p⟩]
    ∧ (spStep C1state "s1" 6125).2 =
        [Emit.gr ⟨0, 125, 5125, 5000, some 1, some 125, true, [], TId.slot 0, 713875, Phase.p⟩] := by
  refine ⟨?_, by decide, by decide⟩
  intro s sock now sess hrl hsess hrun
  rw [spStep_running s sock now sess hrl hsess hrun]
  obtain ⟨resp, s1, heq, hd, hft, htt, hw1, hw0, _, _, _, _⟩ :=
    spScore_shape { s with requestCounts := (checkRateLimit s.requestCounts sock "sp" now).2 }
      sock sess now
  exact ⟨resp, by rw [heq], hft, htt, hd, hw1, hw0⟩

/-- Witness for C1 at a concrete input. -/
theorem C1_stop_scoring_witness :
    ∃ resp : GrResp, (spStep C1state "s1" 6000).2 = [Emit.gr resp]
      ∧ resp.ft = ((6000 : Nat) : Int) - (C1sess.startTime : Int)
      ∧ resp.tt = C1sess.targetTime
      ∧ resp.d = (((6000 : Nat) : Int) - (C1sess.startTime : Int) - (C1sess.targetTime : Int)).natAbs
      ∧ (resp.w = 1 ↔ resp.d = 0)
      ∧ (resp.w = 0 ↔ resp.d ≠ 0) :=
  C1_stop_scoring.1 C1state "s1" 6000 C1sess (by decide) (by decide) (by decide)

/-- C2: only the first stop issued while the session is RUNNING produces a
scored result.  Part one: a rate-admitted stop on a running session emits a
single scored gr reply and marks the session finished.  Part two: a
rate-admitted stop on an existing session that is not running changes
nothing except the rate-limiter bookkeeping and emits nothing.  Part three:
after a scored stop, a second rate-admitted stop with no intervening event
emits nothing and leaves the session store and the ranking store
unchanged. -/
theorem C2_stop_idempotent :
    (∀ (s : ServerState) (sock : String) (now : Nat) (sess : Session),
      (checkRateLimit s.requestCounts sock "sp" now).1 = true →
      alookup s.sessions sock = some sess →
      sess.status = SStatus.running →
      (∃ resp : GrResp, (spStep s sock now).2 = [Emit.gr resp])
      ∧ ∃ b : Option Nat,
          alookup (spStep s sock now).1.sessions sock =
            some { sess with status := SStatus.finished, bestScore := b })
    ∧ (∀ (s : ServerState) (sock : String) (now : Nat) (sess : Session),
      (checkRateLimit s.requestCounts sock "sp" now).1 = true →
      alookup s.sessions sock = some sess →
      sess.status ≠ SStatus.running →
      spStep s sock now =
        ({ s with requestCounts := (checkRateLimit s.requestCounts sock "sp" now).2 }, []))
    ∧ (∀ (s : ServerState) (sock : String) (now now2 : Nat) (sess : Session),
      (checkRateLimit s.requestCounts sock "sp" now).1 = true →
      alookup s.sessions sock = some sess →
      sess.status = SStatus.running →
      (checkRateLimit (spStep s sock now).1.requestCounts sock "sp" now2).1 = true →
      (spStep (spStep s sock now).1 sock now2).2 = []
      ∧ (spStep (spStep s sock now).1 sock now2).1.sessions = (spStep s sock now).1.sessions
      ∧ (spStep (spStep s sock now).1 sock now2).1.redis = (spStep s sock now).1.redis) := by
  refine ⟨?_, ?_, ?_⟩
  · intro s sock now sess hrl hsess hrun
    rw [spStep_running s sock now sess hrl hsess hrun]
    constructor
    · obtain ⟨resp, s1, heq, _⟩ :=
        spScore_shape { s with requestCounts := (checkRateLimit s.requestCounts sock "sp" now).2 }
          sock sess now
      exact ⟨resp, by rw [heq]⟩
    · exact spScore_session _ sock sess now
  · intro s sock now sess hrl hsess hrun
    exact spStep_notRunning s sock now sess hrl hsess hrun
  · intro s sock now now2 sess hrl hsess hrun hrl2
    have hstep := spStep_running s sock now sess hrl hsess hrun
    obtain ⟨b, hb⟩ :=
      spScore_session { s with requestCounts := (checkRateLimit s.requestCounts sock "sp" now).2 }
        sock sess now
    have hsess2 : alookup (spStep s sock now).1.sessions sock =
        some { sess with status := SStatus.finished, bestScore := b } := by
      rw [hstep]
      exact hb
    have h2 := spStep_notRunning (spStep s sock now).1 sock now2 _ hrl2 hsess2 (by simp)
    rw [h2]
    exact ⟨rfl, rfl, rfl⟩

/-- Witness for C2 at a concrete input: a scored first stop and a silent
second stop. -/
theorem C2_stop_idempotent_witness :
    ((∃ resp : GrResp, (spStep C2state "s2" 6000).2 = [Emit.gr resp])
      ∧ ∃ b : Option Nat,
          alookup (spStep C2state "s2" 6000).1.sessions "s2" =
            some { C2sess with status := SStatus.finished, bestScore := b })
    ∧ ((spStep (spStep C2state "s2" 6000).1 "s2" 6100).2 = []
      ∧ (spStep (spStep C2state "s2" 6000).1 "s2" 6100).1.sessions =
          (spStep C2state "s2" 6000).1.sessions
      ∧ (spStep (spStep C2state "s2" 6000).1 "s2" 6100).1.redis =
          (spStep C2state "s2" 6000).1.redis) :=
  ⟨C2_stop_idempotent.1 C2state "s2" 6000 C2sess (by decide) (by decide) (by decide),
    C2_stop_idempotent.2.2 C2state "s2" 6000 6100 C2sess (by decide) (by decide) (by decide)
      (by decide)⟩

/-- C4 (amended): a stop on a running tournament session reports the target
locked at init unchanged, and its remaining-time and phase fields use the
tournament id locked at init; but the response's tournament id field, and
the only ranking-store key the stop may write, is the id recomputed from the
attempt's serverStart (getTournamentKey of session.startTime), which
coincides with the locked id only when the lock is the rolling slot of the
start time. -/
theorem C4_locked_id_amended :
    ∀ (s : ServerState) (sock : String) (now : Nat) (sess : Session),
      (checkRateLimit s.requestCounts sock "sp" now).1 = true →
      alookup s.sessions sock = some sess →
      sess.status = SStatus.running →
      ∃ resp : GrResp, (spStep s sock now).2 = [Emit.gr resp]
        ∧ resp.tt = sess.targetTime
        ∧ resp.tid = getTournamentKey sess.startTime
        ∧ (∀ (t : TId) (p : String), t ≠ getTournamentKey sess.startTime →
            zscore (spStep s sock now).1.redis.zsets t p = zscore s.redis.zsets t p)
        ∧ resp.rem =
            getTournamentTimeLeft (spStep s sock now).1.redis (some sess.tournamentId) now
        ∧ resp.ph =
            getTournamentPhase (spStep s sock now).1.redis (some sess.tournamentId) now := by
  intro s sock now sess hrl hsess hrun
  have hstep := spStep_running s sock now sess hrl hsess hrun
  obtain ⟨resp, s1, heq, _, _, htt, _, _, _, htid, hrem, hph⟩ :=
    spScore_shape { s with requestCounts := (checkRateLimit s.requestCounts sock "sp" now).2 }
      sock sess now
  refine ⟨resp, by rw [hstep, heq], htt, htid, ?_, ?_, ?_⟩
  · intro t p ht
    rw [hstep]
    rw [spScore_zsets_other _ sock sess now t p ht]
  · rw [hstep, heq]
    exact hrem
  · rw [hstep, heq]
    exact hph

/-- Witness for the amended C4 at a concrete input. -/
theorem C4_locked_id_amended_witness :
    ∃ resp : GrResp, (spStep C4state "s1" 905000).2 = [Emit.gr resp]
      ∧ resp.tt = C4sess.targetTime
      ∧ resp.tid = getTournamentKey C4sess.startTime
      ∧ (∀ (t : TId) (p : String), t ≠ getTournamentKey C4sess.startTime →
          zscore (spStep C4state "s1" 905000).1.redis.zsets t p = zscore C4state.redis.zsets t p)
      ∧ resp.rem =
          getTournamentTimeLeft (spStep C4state "s1" 905000).1.redis
            (some C4sess.tournamentId) 905000
      ∧ resp.ph =
          getTournamentPhase (spStep C4state "s1" 905000).1.redis
            (some C4sess.tournamentId) 905000 :=
  C4_locked_id_amended C4state "s1" 905000 C4sess (by decide) (by decide) (by decide)

/-- C6: the rate limiter.  Part one: starting from an empty counter for a
key, a run of arrivals all inside one window of length W admits exactly the
first max and rejects every further one.  Part two: an arrival is admitted
whenever fewer than max admitted timestamps remain inside the sliding
window, which is how admission resumes once old events fall out of the
window.  Part three: a concrete run on the st budget (5 per 10 seconds):
five admits, a rejection before the window has elapsed, and a re-admission
once it has.  Part four: a rate-denied event is dropped with no state change
(the ig handler answers only a one-way toast notice, st and sp stay silent);
no handler has any disconnect effect.  Part five: distinct (socket, event)
keys have independent counters: a check at one key never changes another
key's stored timestamps.  Part six: the verdict at a key depends only on
that key's stored timestamps.  Part seven: the per-kind budgets of
RATE_LIMITS: ig 10 per 60 s, st 5 per 10 s, sp 10 per 20 s, and the default
20 per 1 s for any other kind. -/
theorem C6_rate_limiter :
    (∀ (sock ev : String) (ts : List Nat) (lo : Nat),
      (∀ t ∈ ts, lo ≤ t ∧ t - lo < (RATE_LIMITS ev).window) →
      (admitRun sock ev [] ts).1 =
        (List.range ts.length).map (fun i => decide (i < (RATE_LIMITS ev).max)))
    ∧ (∀ (rc : RC) (sock ev : String) (now : Nat),
      (((alookup rc (sock, ev)).getD []).filter
          (fun t => decide (now - t < (RATE_LIMITS ev).window))).length <
        (RATE_LIMITS ev).max →
      (checkRateLimit rc sock ev now).1 = true)
    ∧ ((admitRun "s" "st" [] [0, 1, 2, 3, 4, 5, 10001]).1 =
        [true, true, true, true, true, false, true])
    ∧ (∀ (s : ServerState) (sock dataU : String) (tokenUid : Option String) (dataM : Char)
        (driver : Driver) (fresh now : Nat),
      ((checkRateLimit s.requestCounts sock "ig" now).1 = false →
        igStep s sock dataU tokenUid dataM driver fresh now =
          (s, [Emit.toast "Too many requests. Please wait."]))
      ∧ ((checkRateLimit s.requestCounts sock "st" now).1 = false →
          stStep s sock now = (s, []))
      ∧ ((checkRateLimit s.requestCounts sock "sp" now).1 = false →
          spStep s sock now = (s, [])))
    ∧ (∀ (rc : RC) (sock ev : String) (now : Nat) (k2 : String × String),
      k2 ≠ (sock, ev) →
      alookup (checkRateLimit rc sock ev now).2 k2 = alookup rc k2)
    ∧ (∀ (rc rc2 : RC) (sock ev : String) (now : Nat),
      alookup rc (sock, ev) = alookup rc2 (sock, ev) →
      (checkRateLimit rc sock ev now).1 = (checkRateLimit rc2 sock ev now).1)
    ∧ (RATE_LIMITS "ig" = ⟨10, 60000⟩ ∧ RATE_LIMITS "st" = ⟨5, 10000⟩
      ∧ RATE_LIMITS "sp" = ⟨10, 20000⟩ ∧ RATE_LIMITS "zz" = ⟨20, 1000⟩) := by
  refine ⟨?_, ?_, by decide, ?_, ?_, ?_, by decide⟩
  · intro sock ev ts lo h
    have := admitRun_window sock ev ts [] [] lo rfl (by simp)
      (fun t ht => (h t ht).1) (fun t ht => (h t ht).2)
    simpa using this
  · intro rc sock ev now h
    rw [checkRateLimit_allow rc sock ev now h]
  · intro s sock dataU tokenUid dataM driver fresh now
    exact ⟨igStep_denied s sock dataU tokenUid dataM driver fresh now,
      stStep_denied s sock now, spStep_denied s sock now⟩
  · intro rc sock ev now k2 hk
    simp only [checkRateLimit]
    by_cases hc : (RATE_LIMITS ev).max ≤ (((alookup rc (sock, ev)).getD []).filter
        (fun t => decide (now - t < (RATE_LIMITS ev).window))).length
    · rw [if_pos hc]
    · rw [if_neg hc]
      exact alookup_aset_ne _ _ _ _ hk
  · intro rc rc2 sock ev now h
    simp only [checkRateLimit, h]
    by_cases hc : (RATE_LIMITS ev).max ≤ (((alookup rc2 (sock, ev)).getD []).filter
        (fun t => decide (now - t < (RATE_LIMITS ev).window))).length
    · rw [if_pos hc, if_pos hc]
    · rw [if_neg hc, if_neg hc]

/-- Witness for C6 at a concrete input: on the ig budget, eleven arrivals in
one minute admit exactly the first ten. -/
theorem C6_rate_limiter_witness :
    (admitRun "s" "ig" [] [0, 1, 2, 3, 4, 5, 6, 7, 8, 9, 10]).1 =
      (List.range ([0, 1, 2, 3, 4, 5, 6, 7, 8, 9, 10] : List Nat).length).map
        (fun i => decide (i < (RATE_LIMITS "ig").max)) :=
  C6_rate_limiter.1 "s" "ig" [0, 1, 2, 3, 4, 5, 6, 7, 8, 9, 10] 0 (by decide)

/-- C7: a rate-admitted tournament-mode init while no tournament key is set
and auto-rotation is disabled answers the no-tournament grd payload (target
0, best -1, rank -1, no tournament id) and creates nothing: no session is
stored, redis is untouched (in particular no target is created for any
tournament), and no tournament key appears. -/
theorem C7_no_tournament :
    ∀ (s : ServerState) (sock dataU : String) (tokenUid : Option String) (dataM : Char)
      (driver : Driver) (fresh now : Nat),
      (checkRateLimit s.requestCounts sock "ig" now).1 = true →
      dataM ≠ 'p' →
      s.currentTournamentKey = none →
      s.autoTournamentEnabled = false →
      (igStep s sock dataU tokenUid dataM driver fresh now).2 =
        [Emit.grd ⟨0, -1, -1, 0, none, Phase.n, 0, true⟩]
      ∧ (igStep s sock dataU tokenUid dataM driver fresh now).1.sessions = s.sessions
      ∧ (igStep s sock dataU tokenUid dataM driver fresh now).1.redis = s.redis
      ∧ (igStep s sock dataU tokenUid dataM driver fresh now).1.currentTournamentKey = none := by
  intro s sock dataU tokenUid dataM driver fresh now hrl hm hck hauto
  refine ⟨?_, ?_, ?_, ?_⟩ <;>
    simp [igStep, hrl, hm, hck, hauto, refresh_currentTournamentKey, refresh_auto,
      refresh_sessions, refresh_redis]

/-- Witness for C7 at a concrete input. -/
theorem C7_no_tournament_witness :
    (igStep C7state "s1" "erin" none 't' Driver.ioredis 5000 100).2 =
      [Emit.grd ⟨0, -1, -1, 0, none, Phase.n, 0, true⟩]
    ∧ (igStep C7state "s1" "erin" none 't' Driver.ioredis 5000 100).1.sessions =
        C7state.sessions
    ∧ (igStep C7state "s1" "erin" none 't' Driver.ioredis 5000 100).1.redis = C7state.redis
    ∧ (igStep C7state "s1" "erin" none 't' Driver.ioredis 5000 100).1.currentTournamentKey =
        none :=
  C7_no_tournament C7state "s1" "erin" none 't' Driver.ioredis 5000 100 (by decide) (by decide)
    rfl rfl

/-- C8 (amended): a start is silently dropped when the rate limiter denies
it, is a no-op (beyond rate bookkeeping) when no session exists, and is
otherwise never gated: this server version consults no attempt resource, so
a rate-admitted start on an existing session records serverStart and sets
the status to running whatever the player's external attempt balance is. -/
theorem C8_start_gate_amended :
    (∀ (s : ServerState) (sock : String) (now : Nat),
      (checkRateLimit s.requestCounts sock "st" now).1 = false →
      stStep s sock now = (s, []))
    ∧ (∀ (s : ServerState) (sock : String) (now : Nat),
      (checkRateLimit s.requestCounts sock "st" now).1 = true →
      alookup s.sessions sock = none →
      stStep s sock now =
        ({ s with requestCounts := (checkRateLimit s.requestCounts sock "st" now).2 }, []))
    ∧ (∀ (s : ServerState) (sock : String) (now : Nat) (sess : Session) (h : Nat),
      (checkRateLimit s.requestCounts sock "st" now).1 = true →
      alookup s.sessions sock = some sess →
      alookup s.health sess.userId = some h →
      stStep s sock now =
        ({ s with
            requestCounts := (checkRateLimit s.requestCounts sock "st" now).2,
            sessions :=
              aset s.sessions sock { sess with startTime := now, status := SStatus.running } },
          [])) := by
  refine ⟨fun s sock now h => stStep_denied s sock now h, ?_, ?_⟩
  · intro s sock now hrl hnone
    simp [stStep, hrl, hnone]
  · intro s sock now sess h hrl hsess _
    exact stStep_admitted s sock now sess hrl hsess

/-- Witness for the amended C8 at a concrete input: the session's player has
attempt balance 0 and the start still succeeds. -/
theorem C8_start_gate_amended_witness :
    stStep C8state "s1" 500 =
      ({ C8state with
          requestCounts := (checkRateLimit C8state.requestCounts "s1" "st" 500).2,
          sessions :=
            aset C8state.sessions "s1"
              { C8sess with startTime := 500, status := SStatus.running } },
        []) :=
  C8_start_gate_amended.2.2 C8state "s1" 500 C8sess 0 (by decide) (by decide) (by decide)

/-- C9 (amended): the refresh procedure reuses the cached snapshot only
while the 10-second TTL is unexpired and the current rolling-slot id equals
the cached id, and refetches for the current slot otherwise; but the refresh
runs only during init: a stop never touches the cache and its reply carries
whatever snapshot was last cached, which can belong to a tournament other
than the currently active one (the counterexample) when no init-triggered
refresh happened after a change of active tournament. -/
theorem C9_cache_amended :
    (∀ (s : ServerState) (now : Nat),
      (now - s.lastLeaderboardUpdate < 10000 ∧
        s.currentCachedTournamentId = some (getTournamentKey now)) →
      refreshLeaderboardCache s now = s)
    ∧ (∀ (s : ServerState) (now : Nat),
      ¬(now - s.lastLeaderboardUpdate < 10000 ∧
        s.currentCachedTournamentId = some (getTournamentKey now)) →
      refreshLeaderboardCache s now =
        { s with
            cachedTop3 := (ztop3 s.redis.zsets (getTournamentKey now)).map
              (fun e => LBEntry.mk e.member e.score),
            lastLeaderboardUpdate := now,
            currentCachedTournamentId := some (getTournamentKey now) })
    ∧ (∀ (s : ServerState) (sock : String) (now : Nat),
      (spStep s sock now).1.cachedTop3 = s.cachedTop3
      ∧ (spStep s sock now).1.lastLeaderboardUpdate = s.lastLeaderboardUpdate
      ∧ (spStep s sock now).1.currentCachedTournamentId = s.currentCachedTournamentId)
    ∧ (∀ (s : ServerState) (sock : String) (now : Nat) (resp : GrResp),
      (spStep s sock now).2 = [Emit.gr resp] → resp.tl = s.cachedTop3) := by
  refine ⟨?_, ?_, ?_, ?_⟩
  · intro s now h
    simp only [refreshLeaderboardCache]
    rw [if_pos h]
  · intro s now h
    simp only [refreshLeaderboardCache]
    rw [if_neg h]
  · intro s sock now
    by_cases hrl : (checkRateLimit s.requestCounts sock "sp" now).1 = true
    · rcases halook : alookup s.sessions sock with _ | sess
      · simp [spStep, hrl, halook]
      · by_cases hrun : sess.status = SStatus.running
        · rw [spStep_running s sock now sess hrl halook hrun]
          exact spScore_cache _ sock sess now
        · rw [spStep_notRunning s sock now sess hrl halook hrun]
          exact ⟨rfl, rfl, rfl⟩
    · rw [spStep_denied s sock now (by simpa using hrl)]
      exact ⟨rfl, rfl, rfl⟩
  · intro s sock now resp hresp
    by_cases hrl : (checkRateLimit s.requestCounts sock "sp" now).1 = true
    · rcases halook : alookup s.sessions sock with _ | sess
      · have hinv : spStep s sock now =
            ({ s with requestCounts := (checkRateLimit s.requestCounts sock "sp" now).2 },
              [Emit.gameOverInvalid]) := by
          simp [spStep, hrl, halook]
        rw [hinv] at hresp
        simp at hresp
      · by_cases hrun : sess.status = SStatus.running
        · rw [spStep_running s sock now sess hrl halook hrun] at hresp
          obtain ⟨resp0, s1, heq, _, _, _, _, _, htl, _, _, _⟩ :=
            spScore_shape
              { s with requestCounts := (checkRateLimit s.requestCounts sock "sp" now).2 }
              sock sess now
          rw [heq] at hresp
          have h2 : [Emit.gr resp0] = [Emit.gr resp] := hresp
          injection h2 with h3 _
          injection h3 with h5
          rw [← h5]
          exact htl
        · rw [spStep_notRunning s sock now sess hrl halook hrun] at hresp
          simp at hresp
    · rw [spStep_denied s sock now (by simpa using hrl)] at hresp
      simp at hresp

/-- Witness for the amended C9 at concrete inputs: a fresh same-slot cache
is reused, and a stop leaves the cache triple untouched. -/
theorem C9_cache_amended_witness :
    refreshLeaderboardCache C9cachedState 105 = C9cachedState
    ∧ ((spStep C9cachedState "nobody" 42).1.cachedTop3 = C9cachedState.cachedTop3
      ∧ (spStep C9cachedState "nobody" 42).1.lastLeaderboardUpdate =
          C9cachedState.lastLeaderboardUpdate
      ∧ (spStep C9cachedState "nobody" 42).1.currentCachedTournamentId =
          C9cachedState.currentCachedTournamentId) :=
  ⟨C9_cache_amended.1 C9cachedState 105 (by decide),
    C9_cache_amended.2.2.1 C9cachedState "nobody" 42⟩

/-- C10: a rate-admitted start on any existing session succeeds regardless
of the session's current status: it overwrites serverStart with the current
time and sets the status to running, discarding any previous attempt's
timing, so a finished session can be restarted and a mid-attempt start
simply restarts the clock. -/
theorem C10_start_unconditional :
    ∀ (s : ServerState) (sock : String) (now : Nat) (sess : Session),
      (checkRateLimit s.requestCounts sock "st" now).1 = true →
      alookup s.sessions sock = some sess →
      stStep s sock now =
        ({ s with
            requestCounts := (checkRateLimit s.requestCounts sock "st" now).2,
            sessions :=
              aset s.sessions sock { sess with startTime := now, status := SStatus.running } },
          []) :=
  fun s sock now sess hrl hsess => stStep_admitted s sock now sess hrl hsess

/-- Witness for C10 at a concrete input: a finished session is restarted. -/
theorem C10_start_unconditional_witness :
    stStep C10state "s3" 7000 =
      ({ C10state with
          requestCounts := (checkRateLimit C10state.requestCounts "s3" "st" 7000).2,
          sessions :=
            aset C10state.sessions "s3"
              { C10sess with startTime := 7000, status := SStatus.running } },
        []) :=
  C10_start_unconditional C10state "s3" 7000 C10sess (by decide) (by decide)

end TimeClash
